import Mathlib

/-!
Verification of the librle RLE (Return Link Encapsulation) core against its
specification.  The C sources are shallowly embedded: machine integers become
Nat with explicit reductions modulo the type width where an overflow or a
bit-field truncation can occur, C int status codes become Int, and the
per-fragment-id context pool becomes a list of context records plus the
byte-wide free bitmap kept as a Nat.

Embedded from the sources:
  - constants.h            (status codes, fragment-type enumeration)
  - rle_ctx.h              (context record, link-status counters, bitmap ops)
  - rle_transmitter.c      (transmitter construction, free_context)
  - encap.c                (create_header, encap_encapsulate_pdu, validity check)
  - rle_receiver.c         (deencapsulation dispatch, context pool management)

Functions of the repository that are referenced by the embedded files but whose
definitions are not among the given sources (protocol-type omission predicate,
buffer flushing, the reassembly engine, numeric constants from header.h) are
either modelled from the specification, with a doc comment starting
"Modelled from the spec:", or taken as parameters so that the theorems hold
for every behaviour of the missing code.
-/

/-! ## Constants from constants.h (in the sources) -/

def C_OK : Int := 0

def C_REASSEMBLY_OK : Int := 1

def C_ERROR : Int := -1

/-- Fragment-type enumeration from constants.h: `RLE_PDU_COMPLETE` is 0. -/
def RLE_PDU_COMPLETE : Int := 0

/-- Fragment-type enumeration from constants.h: `RLE_PDU_START_FRAG` is 1. -/
def RLE_PDU_START_FRAG : Int := 1

/-- Fragment-type enumeration from constants.h: `RLE_PDU_CONT_FRAG` is 2. -/
def RLE_PDU_CONT_FRAG : Int := 2

/-- Fragment-type enumeration from constants.h: `RLE_PDU_END_FRAG` is 3. -/
def RLE_PDU_END_FRAG : Int := 3

/-! ## Constants from headers not among the sources, modelled from the spec -/

/-- Modelled from the spec: `RLE_MAX_FRAG_NUMBER` (header.h is not in the
sources).  Spec section 3: the context pool holds 8 per-fragment-id contexts. -/
def RLE_MAX_FRAG_NUMBER : Nat := 8

/-- Modelled from the spec: `RLE_MAX_FRAG_ID` (header.h is not in the
sources).  Spec section 3: a fragment id is a 3-bit integer in [0, 7]. -/
def RLE_MAX_FRAG_ID : Nat := 7

/-- Modelled from the spec: `RLE_MAX_PDU_SIZE` (header.h is not in the
sources).  Spec sections 3 and 4.6: an SDU is at most 4088 bytes. -/
def RLE_MAX_PDU_SIZE : Nat := 4088

/-- Modelled from the spec: `RLE_PROTO_TYPE_VLAN_COMP_WO_PTYPE_FIELD`
(rle_header_proto_type_field.h is not in the sources).  Spec sections 4.2 and
4.8: the reserved compressed code 0x31, VLAN-compressed without ptype field. -/
def RLE_PROTO_TYPE_VLAN_COMP_WO_PTYPE_FIELD : Nat := 0x31

/-- Modelled from the spec: `RLE_PROTO_TYPE_SIGNAL_UNCOMP`
(rle_header_proto_type_field.h is not in the sources).  Spec section 4.1: the
signalling protocol type is 0x0082. -/
def RLE_PROTO_TYPE_SIGNAL_UNCOMP : Nat := 0x0082

/-- Modelled from the spec: `RLE_COMPLETE_HEADER_SIZE` (header.h is not in the
sources).  Spec section 3: a COMPLETE PPDU header is 2 bytes. -/
def RLE_COMPLETE_HEADER_SIZE : Nat := 2

/-- Modelled from the spec: `RLE_PROTO_TYPE_FIELD_SIZE_COMP` (header not in the
sources).  Spec section 3: the compressed protocol-type field is 1 byte. -/
def RLE_PROTO_TYPE_FIELD_SIZE_COMP : Nat := 1

/-- Modelled from the spec: `RLE_PROTO_TYPE_FIELD_SIZE_UNCOMP` (header not in
the sources).  Spec section 3: the uncompressed protocol-type field is 2
bytes. -/
def RLE_PROTO_TYPE_FIELD_SIZE_UNCOMP : Nat := 2

/-- Modelled from the spec: `RLE_T_PROTO_TYPE_NO_SUPP` (header not in the
sources).  Label/type-indicator code for a present protocol-type field; the
exact numeric value is immaterial to the claims, only distinctness matters. -/
def RLE_T_PROTO_TYPE_NO_SUPP : Nat := 0

/-- Modelled from the spec: `RLE_T_PROTO_TYPE_SUPP` (header not in the
sources).  Type-indicator code for a suppressed protocol-type field. -/
def RLE_T_PROTO_TYPE_SUPP : Nat := 1

/-- Modelled from the spec: `RLE_LT_IMPLICIT_PROTO_TYPE` (header not in the
sources).  Label-type code for an elided protocol type restored from the
implicit configuration; spec section 4.1. -/
def RLE_LT_IMPLICIT_PROTO_TYPE : Nat := 2

/-- Modelled from the spec: `RLE_LT_PROTO_SIGNAL` (header not in the sources).
Label-type code for a signalling SDU; spec section 4.1. -/
def RLE_LT_PROTO_SIGNAL : Nat := 3

/-- Width bound of the uint64 link-status counters. -/
def UINT64_MOD : Nat := 2 ^ 64

/-! ## Link-status counters (struct link_status, rle_ctx.h) -/

/-- The `struct link_status` record of rle_ctx.h: seven uint64 counters. -/
structure link_status where
  counter_in : Nat
  counter_ok : Nat
  counter_dropped : Nat
  counter_lost : Nat
  counter_bytes_in : Nat
  counter_bytes_ok : Nat
  counter_bytes_dropped : Nat
deriving DecidableEq

/-! ## The modelled zero-copy complete header written by create_header -/

/-- Shape of the ALPDU protocol-type field chosen by `create_header`:
suppressed, 1-byte compressed code, escaped 0xFF plus uncompressed 16-bit
value, or plain uncompressed 16-bit value.  The byte-level layout lives in
headers not among the sources; the shape and payload are what the claims
need. -/
inductive PtypeField where
  | suppressed : PtypeField
  | comp (code : Nat) : PtypeField
  | compFallback (uncompressed_value : Nat) : PtypeField
  | uncomp (value : Nat) : PtypeField
deriving DecidableEq

/-- The complete-PPDU header that `create_header` (encap.c) writes through the
`zc_rle_header_complete_w_ptype` overlay.  The bit layout (start/end
indicators, 11-bit length, 2-bit label type, 1-bit type indicator) follows
spec section 3; the overlay struct itself is in zc_buffer.h, not among the
sources.  `pdu_ptrs` models the start and end payload pointers as the
referenced SDU bytes. -/
structure zc_rle_header_complete_w_ptype where
  start_ind : Nat
  end_ind : Nat
  packet_length : Nat
  label_type : Nat
  proto_type_supp : Nat
  ptype_field : PtypeField
  pdu_ptrs : Option (List Nat)
deriving DecidableEq

/-! ## The RLE context record (struct rle_ctx_management, rle_ctx.h) -/

/-- The `struct rle_ctx_management` of rle_ctx.h.  Pointer members are
modelled by value: `pdu_buf` holds the referenced SDU bytes, `buf` holds the
header written over the context buffer, `buff_contents` holds the data bytes
of the fragmentation or reassembly arena, and `end_address` is the offset of
the end address from the buffer start. -/
structure rle_ctx_management where
  frag_id : Nat
  next_seq_nb : Nat
  is_fragmented : Bool
  frag_counter : Nat
  nb_frag_pdu : Nat
  qos_tag : Nat
  use_crc : Bool
  pdu_length : Nat
  remaining_pdu_length : Nat
  rle_length : Nat
  alpdu_size : Nat
  remaining_alpdu_size : Nat
  proto_type : Nat
  label_type : Nat
  pdu_buf : Option (List Nat)
  buf : zc_rle_header_complete_w_ptype
  buff_contents : List Nat
  end_address : Nat
  lk_status : link_status
deriving DecidableEq

/-- `rle_ctx_incr_counter_in` (rle_ctx.h): `counter_in++` on a uint64. -/
def rle_ctx_incr_counter_in (c : rle_ctx_management) : rle_ctx_management :=
  { c with lk_status :=
      { c.lk_status with counter_in := (c.lk_status.counter_in + 1) % UINT64_MOD } }

/-- `rle_ctx_incr_counter_ok` (rle_ctx.h): `counter_ok++` on a uint64. -/
def rle_ctx_incr_counter_ok (c : rle_ctx_management) : rle_ctx_management :=
  { c with lk_status :=
      { c.lk_status with counter_ok := (c.lk_status.counter_ok + 1) % UINT64_MOD } }

/-- `rle_ctx_incr_counter_dropped` (rle_ctx.h): `counter_dropped++` on a
uint64. -/
def rle_ctx_incr_counter_dropped (c : rle_ctx_management) : rle_ctx_management :=
  { c with lk_status :=
      { c.lk_status with counter_dropped := (c.lk_status.counter_dropped + 1) % UINT64_MOD } }

/-- `rle_ctx_incr_counter_lost` (rle_ctx.h): `counter_lost += val` on a
uint64. -/
def rle_ctx_incr_counter_lost (c : rle_ctx_management) (val : Nat) : rle_ctx_management :=
  { c with lk_status :=
      { c.lk_status with counter_lost := (c.lk_status.counter_lost + val) % UINT64_MOD } }

/-- `rle_ctx_incr_counter_bytes_in` (rle_ctx.h): `counter_bytes_in += val`. -/
def rle_ctx_incr_counter_bytes_in (c : rle_ctx_management) (val : Nat) : rle_ctx_management :=
  { c with lk_status :=
      { c.lk_status with counter_bytes_in := (c.lk_status.counter_bytes_in + val) % UINT64_MOD } }

/-- `rle_ctx_incr_counter_bytes_dropped` (rle_ctx.h):
`counter_bytes_dropped += val`. -/
def rle_ctx_incr_counter_bytes_dropped (c : rle_ctx_management) (val : Nat) :
    rle_ctx_management :=
  { c with lk_status :=
      { c.lk_status with counter_bytes_dropped :=
          (c.lk_status.counter_bytes_dropped + val) % UINT64_MOD } }

/-- `rle_ctx_get_remaining_alpdu_length` (declared in rle_ctx.h): reads the
`remaining_alpdu_size` field. -/
def rle_ctx_get_remaining_alpdu_length (c : rle_ctx_management) : Nat :=
  c.remaining_alpdu_size

/-! ## Free-bitmap operations (rle_ctx.h, in the sources) -/

/-- `rle_ctx_is_free` (rle_ctx.h): `((contexts >> frag_id) & 0x1) == 0`. -/
def rle_ctx_is_free (contexts : Nat) (frag_id : Nat) : Bool :=
  ((contexts >>> frag_id) &&& 1) == 0

/-- `rle_ctx_set_nonfree` (rle_ctx.h): `*contexts |= (1 << frag_id)` on a
uint8, hence the reduction modulo 256. -/
def rle_ctx_set_nonfree (contexts : Nat) (frag_id : Nat) : Nat :=
  (contexts ||| (1 <<< frag_id)) % 256

/-- `rle_ctx_set_free` (rle_ctx.h): `*contexts &= ~(1 << frag_id)` on a
uint8; the complement of the shifted bit is taken within the 8-bit width. -/
def rle_ctx_set_free (contexts : Nat) (frag_id : Nat) : Nat :=
  contexts &&& (255 ^^^ ((1 <<< frag_id) % 256))

/-! ## Configuration -/

/-- The RLE configuration record behind `struct rle_configuration`
(rle_conf.c is not among the sources).  Field usage is taken from the setter
calls in rle_transmitter.c and the getter calls in encap.c; the four knobs
are those of spec section 4.8. -/
structure rle_configuration where
  default_ptype : Nat
  crc_check : Bool
  ptype_compression : Bool
  ptype_suppression : Bool
deriving DecidableEq

/-- `rle_conf_get_ptype_compression` (rle_conf.c, not among the sources):
reads the compression knob. -/
def rle_conf_get_ptype_compression (conf : rle_configuration) : Bool :=
  conf.ptype_compression

/-- The public `struct rle_context_configuration` dereferenced by
`rle_transmitter_new`; its four field names appear verbatim in
rle_transmitter.c lines 107 and 146-149. -/
structure rle_context_configuration where
  implicit_protocol_type : Nat
  use_alpdu_crc : Bool
  use_compressed_ptype : Bool
  use_ptype_omission : Bool
deriving DecidableEq

/-- Modelled from the spec: `ptype_is_omissible` (rle_conf.c is not among the
sources).  Spec sections 4.1 and 4.2: the protocol-type field is elided
exactly when omission is configured and the SDU type equals the configured
implicit default; for a signalling SDU (type 0x0082) the field is always
present. -/
def ptype_is_omissible (ptype : Nat) (conf : rle_configuration) : Bool :=
  conf.ptype_suppression && ptype == conf.default_ptype
    && ptype != RLE_PROTO_TYPE_SIGNAL_UNCOMP

/-! ## create_header and encapsulation (encap.c, in the sources) -/

/-- `encap_check_pdu_validity` (encap.c): rejects an SDU longer than
`RLE_MAX_PDU_SIZE`. -/
def encap_check_pdu_validity (pdu_length : Nat) : Int :=
  if pdu_length > RLE_MAX_PDU_SIZE then C_ERROR else C_OK

/-- `create_header` (encap.c).  The protocol-type table consulted by
`rle_header_ptype_is_compressible` and `rle_header_ptype_compression` lives
in files not among the sources, so both are taken as parameters
`is_compressible` and `compress`; every theorem below holds for all values of
these parameters.  The `ntohs` byte swap into the overlay is a representation
detail of the byte buffer; the modelled header stores the 16-bit value.  The
packet-length store goes through the 11-bit header field (spec section 6),
whence the reduction modulo 2048; the uint32 context length fields reduce
modulo 2 to the 32. -/
def create_header (conf : rle_configuration) (is_compressible : Nat → Bool)
    (compress : Nat → Nat) (ctx : rle_ctx_management) (data_buffer : List Nat)
    (data_length : Nat) (protocol_type : Nat) : rle_ctx_management × Int :=
  let pfield :=
    if !(ptype_is_omissible protocol_type conf) then
      if rle_conf_get_ptype_compression conf then
        if is_compressible protocol_type then
          (RLE_PROTO_TYPE_FIELD_SIZE_COMP, PtypeField.comp (compress protocol_type),
           RLE_T_PROTO_TYPE_NO_SUPP)
        else
          (RLE_PROTO_TYPE_FIELD_SIZE_COMP + RLE_PROTO_TYPE_FIELD_SIZE_UNCOMP,
           PtypeField.compFallback (protocol_type % 2 ^ 16), RLE_T_PROTO_TYPE_NO_SUPP)
      else
        (RLE_PROTO_TYPE_FIELD_SIZE_UNCOMP, PtypeField.uncomp (protocol_type % 2 ^ 16),
         RLE_T_PROTO_TYPE_NO_SUPP)
    else
      (0, PtypeField.suppressed, RLE_T_PROTO_TYPE_SUPP)
  let ptype_length := pfield.1
  let proto_type_supp := pfield.2.2
  let size_header := RLE_COMPLETE_HEADER_SIZE + ptype_length
  let label_type_val :=
    if protocol_type == RLE_PROTO_TYPE_SIGNAL_UNCOMP then RLE_LT_PROTO_SIGNAL
    else if proto_type_supp == RLE_T_PROTO_TYPE_SUPP then RLE_LT_IMPLICIT_PROTO_TYPE
    else RLE_T_PROTO_TYPE_NO_SUPP
  let hdr : zc_rle_header_complete_w_ptype :=
    { start_ind := 1
      end_ind := 1
      packet_length := data_length % 2 ^ 11
      label_type := label_type_val
      proto_type_supp := proto_type_supp
      ptype_field := pfield.2.1
      pdu_ptrs := some data_buffer }
  ({ ctx with
      buf := hdr
      proto_type := protocol_type % 2 ^ 16
      end_address := size_header
      is_fragmented := false
      frag_counter := 1
      nb_frag_pdu := 1
      use_crc := false
      pdu_length := data_length % 2 ^ 32
      remaining_pdu_length := data_length % 2 ^ 32
      alpdu_size := (data_length + ptype_length) % 2 ^ 32
      remaining_alpdu_size := (data_length + ptype_length) % 2 ^ 32
      rle_length := (data_length + ptype_length) % 2 ^ 32
      label_type := label_type_val
      qos_tag := 0 }, C_OK)

/-- `encap_encapsulate_pdu` (encap.c): bumps the attempt counters, checks the
SDU size, then builds the complete header and records the PDU buffer in the
context.  The returned Int is the C status code. -/
def encap_encapsulate_pdu (conf : rle_configuration) (is_compressible : Nat → Bool)
    (compress : Nat → Nat) (ctx : rle_ctx_management) (pdu_buffer : List Nat)
    (pdu_length : Nat) (protocol_type : Nat) : rle_ctx_management × Int :=
  let ctx1 := rle_ctx_incr_counter_in ctx
  let ctx2 := rle_ctx_incr_counter_bytes_in ctx1 pdu_length
  if encap_check_pdu_validity pdu_length == C_ERROR then
    (rle_ctx_incr_counter_bytes_dropped (rle_ctx_incr_counter_dropped ctx2) pdu_length, C_ERROR)
  else
    let res := create_header conf is_compressible compress ctx2 pdu_buffer pdu_length
      protocol_type
    if res.2 == C_ERROR then
      (rle_ctx_incr_counter_bytes_dropped (rle_ctx_incr_counter_dropped ctx2) pdu_length, C_ERROR)
    else
      ({ res.1 with pdu_buf := some pdu_buffer }, C_OK)

/-! ## Transmitter (rle_transmitter.c, in the sources) -/

/-- The `struct rle_transmitter` of rle_transmitter.h: eight contexts, one
configuration, one byte-wide free bitmap. -/
structure rle_transmitter where
  rle_ctx_man : List rle_ctx_management
  rle_conf : rle_configuration
  free_ctx : Nat
deriving DecidableEq

/-- The header written over a freshly flushed context buffer: all fields
zero, no protocol-type field, no payload pointers. -/
def zeroed_header : zc_rle_header_complete_w_ptype :=
  { start_ind := 0
    end_ind := 0
    packet_length := 0
    label_type := 0
    proto_type_supp := 0
    ptype_field := PtypeField.suppressed
    pdu_ptrs := none }

/-- A context as produced by `rle_ctx_init_f_buff` via `flush` (rle_ctx.c):
`frag_id` and `next_seq_nb` are set to 0xff, `use_crc` cleared, all counters
reset, the freshly allocated buffer zeroed. -/
def flushed_ctx : rle_ctx_management :=
  { frag_id := 0xff
    next_seq_nb := 0xff
    is_fragmented := false
    frag_counter := 0
    nb_frag_pdu := 0
    qos_tag := 0
    use_crc := false
    pdu_length := 0
    remaining_pdu_length := 0
    rle_length := 0
    alpdu_size := 0
    remaining_alpdu_size := 0
    proto_type := 0
    label_type := 0
    pdu_buf := none
    buf := zeroed_header
    buff_contents := []
    end_address := 0
    lk_status := ⟨0, 0, 0, 0, 0, 0, 0⟩ }

/-- `rle_ctx_set_frag_id` (rle_ctx.c): stores a uint8 fragment id. -/
def rle_ctx_set_frag_id (c : rle_ctx_management) (val : Nat) : rle_ctx_management :=
  { c with frag_id := val % 256 }

/-- `rle_ctx_set_seq_nb` (rle_ctx.c): stores a uint8 sequence number. -/
def rle_ctx_set_seq_nb (c : rle_ctx_management) (val : Nat) : rle_ctx_management :=
  { c with next_seq_nb := val % 256 }

/-- `rle_transmitter_new` (rle_transmitter.c): refuses the reserved implicit
protocol type 0x31, otherwise initializes the eight contexts (fragment ids 0
through 7, sequence numbers 0), clears the free bitmap and stores the four
configuration knobs.  Allocation, which the source can also fail on, is
modelled as succeeding. -/
def rle_transmitter_new (configuration : rle_context_configuration) :
    Option rle_transmitter :=
  if configuration.implicit_protocol_type == RLE_PROTO_TYPE_VLAN_COMP_WO_PTYPE_FIELD then
    none
  else
    some
      { rle_ctx_man :=
          (List.range RLE_MAX_FRAG_NUMBER).map fun i =>
            rle_ctx_set_seq_nb (rle_ctx_set_frag_id flushed_ctx i) 0
        rle_conf :=
          { default_ptype := configuration.implicit_protocol_type
            crc_check := configuration.use_alpdu_crc
            ptype_compression := configuration.use_compressed_ptype
            ptype_suppression := configuration.use_ptype_omission }
        free_ctx := 0 }

/-- `rle_transmitter_free_context` (rle_transmitter.c): via the static
`set_free_frag_ctx` it clears the fragment-id bit of the free bitmap with
`rle_ctx_set_free`; nothing else is touched. -/
def rle_transmitter_free_context (t : rle_transmitter) (fragment_id : Nat) :
    rle_transmitter :=
  { t with free_ctx := rle_ctx_set_free t.free_ctx fragment_id }

/-- Modelled from the spec: the transmitter-level encapsulation entry point
`rle_transmitter_encap_data` (rle_transmitter.c revision with this function is
not among the sources; only its declaration is).  Spec section 4.6: encap
acquires the context on success and on failure leaves the context free; the
per-context work is the `encap_encapsulate_pdu` of encap.c, which is among
the sources. -/
def rle_transmitter_encap_data (is_compressible : Nat → Bool) (compress : Nat → Nat)
    (t : rle_transmitter) (data_buffer : List Nat) (data_length : Nat)
    (protocol_type : Nat) (frag_id : Nat) : rle_transmitter × Int :=
  let ctx := t.rle_ctx_man.getD frag_id flushed_ctx
  let res := encap_encapsulate_pdu t.rle_conf is_compressible compress ctx data_buffer
    data_length protocol_type
  if res.2 == C_OK then
    ({ t with
        rle_ctx_man := t.rle_ctx_man.set frag_id res.1
        free_ctx := rle_ctx_set_nonfree t.free_ctx frag_id }, C_OK)
  else
    ({ t with rle_ctx_man := t.rle_ctx_man.set frag_id res.1 }, C_ERROR)

/-! ## Receiver (rle_receiver.c, in the sources) -/

/-- The receiver module: eight contexts, eight per-context configurations,
one byte-wide free bitmap (bit i set means context i is in use).  The
revision of the receiver struct used by rle_receiver.c carries a
configuration per context; the dispatch only passes it through to the
reassembly engine. -/
structure rle_receiver where
  rle_ctx_man : List rle_ctx_management
  rle_conf : List rle_configuration
  free_ctx : Nat
deriving DecidableEq

/-- A decoded PPDU as seen by the receiver dispatch: the three header fields
it reads through the `union rle_header_all` overlay (header.h is not among
the sources; the bit layout is spec section 3) plus the raw bytes handed to
the reassembly engine. -/
structure PPDU where
  start_ind : Nat
  end_ind : Nat
  LT_T_FID : Nat
  body : List Nat
deriving DecidableEq

/-- `is_context_free` (rle_receiver.c): an out-of-range index reports
non-free; otherwise bit `index` of the free bitmap must be clear. -/
def is_context_free (r : rle_receiver) (index : Nat) : Bool :=
  if index ≥ RLE_MAX_FRAG_NUMBER then false
  else ((r.free_ctx >>> index) &&& 1) == 0

/-- `get_first_free_frag_ctx` (rle_receiver.c): the loop over indices 0
through 7 returning the first one whose bitmap bit is clear, `C_ERROR` when
all are set. -/
def get_first_free_frag_ctx (r : rle_receiver) : Int :=
  match (List.range RLE_MAX_FRAG_NUMBER).find? (fun i => ((r.free_ctx >>> i) &&& 1) == 0) with
  | some i => Int.ofNat i
  | none => C_ERROR

/-- `set_nonfree_frag_ctx` (rle_receiver.c): `free_ctx |= (1 << index)` on
the uint8 bitmap. -/
def set_nonfree_frag_ctx (r : rle_receiver) (index : Nat) : rle_receiver :=
  { r with free_ctx := (r.free_ctx ||| (1 <<< index)) % 256 }

/-- `set_free_frag_ctx` (rle_receiver.c): `free_ctx &= ~(1 << index)` on the
uint8 bitmap; same operation as `rle_ctx_set_free`. -/
def set_free_frag_ctx (r : rle_receiver) (index : Nat) : rle_receiver :=
  { r with free_ctx := rle_ctx_set_free r.free_ctx index }

/-- `get_recvd_fragment_type` (rle_receiver.c): the switch on the start and
end indicator bits; an indicator outside {0, 1} falls to the default branch
returning `C_ERROR`. -/
def get_recvd_fragment_type (p : PPDU) : Int :=
  match p.start_ind, p.end_ind with
  | 0, 0 => RLE_PDU_CONT_FRAG
  | 0, _ => RLE_PDU_END_FRAG
  | 1, 0 => RLE_PDU_START_FRAG
  | 1, _ => RLE_PDU_COMPLETE
  | _, _ => C_ERROR

/-- `get_fragment_id` (rle_receiver.c): reads the LT_T_FID header field. -/
def get_fragment_id (p : PPDU) : Nat :=
  p.LT_T_FID

/-- Modelled from the spec: `rle_ctx_flush_buffer` (the rle_ctx.c revision
defining it is not among the sources).  Per spec sections 3 (lifecycle) and
4.4 it clears the data arena of the context between ALPDUs; the link-status
counters are cumulative statistics (spec sections 6 and 7) and persist. -/
def rle_ctx_flush_buffer (c : rle_ctx_management) : rle_ctx_management :=
  { c with buff_contents := [] }

/-- Modelled from the spec: `rle_ctx_invalid_ctx` (the rle_ctx.c revision
defining it is not among the sources).  Per spec section 4.7 step 3 a fatal
reassembly error releases the context: the per-ALPDU protocol state is
reset; the cumulative drop/lost counters persist (spec section 7). -/
def rle_ctx_invalid_ctx (c : rle_ctx_management) : rle_ctx_management :=
  { c with
      is_fragmented := false
      frag_counter := 0
      nb_frag_pdu := 0
      use_crc := false
      pdu_length := 0
      remaining_pdu_length := 0
      rle_length := 0
      alpdu_size := 0
      remaining_alpdu_size := 0
      qos_tag := 0 }

/-- `rle_receiver_free_context` (rle_receiver.c): flush the context buffer
and clear its free-bitmap bit. -/
def rle_receiver_free_context (r : rle_receiver) (fragment_id : Nat) : rle_receiver :=
  { r with
      rle_ctx_man := r.rle_ctx_man.set fragment_id
        (rle_ctx_flush_buffer (r.rle_ctx_man.getD fragment_id flushed_ctx))
      free_ctx := rle_ctx_set_free r.free_ctx fragment_id }

/-- The reassembly engine `reassembly_reassemble_pdu` (reassembly.c is not
among the sources).  The dispatch theorems hold for every behaviour of the
missing engine, so it is a parameter: given the context, its configuration,
the PPDU, the data length and the fragment type it returns the C status code
and the updated context. -/
abbrev ReasmFun :=
  rle_ctx_management → rle_configuration → PPDU → Nat → Int → Int × rle_ctx_management

/-- Result of `rle_receiver_deencap_data`: the updated receiver, the value
stored through the `index_ctx` out-parameter (`none` when the routine
returns before writing it) and the C status code. -/
structure DeencapOut where
  rcv : rle_receiver
  index_ctx : Option Int
  ret : Int
deriving DecidableEq

/-- The busy-START penalty of `rle_receiver_deencap_data` (rle_receiver.c
lines 186-195): on a START whose context is in use, count one dropped SDU
and the remaining ALPDU bytes on that context, then release it. -/
def deencap_drop_busy_start_ctx (r : rle_receiver) (i : Nat) : rle_receiver :=
  let ctx := r.rle_ctx_man.getD i flushed_ctx
  let ctx1 := rle_ctx_incr_counter_dropped ctx
  let ctx2 := rle_ctx_incr_counter_bytes_dropped ctx1 (rle_ctx_get_remaining_alpdu_length ctx1)
  rle_receiver_free_context { r with rle_ctx_man := r.rle_ctx_man.set i ctx2 } i

/-- The orphan CONT/END penalty of `rle_receiver_deencap_data`
(rle_receiver.c lines 209-223): on a CONT or END whose context is free,
count one dropped, one lost and the remaining ALPDU bytes on that context,
then release it. -/
def deencap_drop_orphan_ctx (r : rle_receiver) (i : Nat) : rle_receiver :=
  let ctx := r.rle_ctx_man.getD i flushed_ctx
  let ctx1 := rle_ctx_incr_counter_dropped ctx
  let ctx2 := rle_ctx_incr_counter_lost ctx1 1
  let ctx3 := rle_ctx_incr_counter_bytes_dropped ctx2 (rle_ctx_get_remaining_alpdu_length ctx2)
  rle_receiver_free_context { r with rle_ctx_man := r.rle_ctx_man.set i ctx3 } i

/-- The common tail of `rle_receiver_deencap_data` after the dispatch switch
(rle_receiver.c lines 230-253): mark the context in use, run the reassembly
engine on it, and on a reassembly failure invalidate and flush the context
and free its bitmap bit. -/
def deencap_resume (reasm : ReasmFun) (r : rle_receiver) (p : PPDU) (data_length : Nat)
    (frag_type : Int) (i : Nat) : DeencapOut :=
  let r1 := set_nonfree_frag_ctx r i
  let ctx := r1.rle_ctx_man.getD i flushed_ctx
  let conf := r1.rle_conf.getD i
    { default_ptype := 0, crc_check := false, ptype_compression := false,
      ptype_suppression := false }
  let res := reasm ctx conf p data_length frag_type
  let r2 := { r1 with rle_ctx_man := r1.rle_ctx_man.set i res.2 }
  if res.1 != C_OK && res.1 != C_REASSEMBLY_OK then
    let ctx2 := rle_ctx_flush_buffer (rle_ctx_invalid_ctx res.2)
    ⟨{ r2 with
        rle_ctx_man := r2.rle_ctx_man.set i ctx2
        free_ctx := rle_ctx_set_free r2.free_ctx i }, some (Int.ofNat i), res.1⟩
  else
    ⟨r2, some (Int.ofNat i), res.1⟩

/-- `rle_receiver_deencap_data` (rle_receiver.c): validity check on the PPDU
length, dispatch on the fragment type with context-pool management and
drop/lost accounting, then the reassembly tail.  The null-pointer guards of
the C entry have no counterpart on values. -/
def rle_receiver_deencap_data (reasm : ReasmFun) (r : rle_receiver) (p : PPDU)
    (data_length : Nat) : DeencapOut :=
  if data_length > RLE_MAX_PDU_SIZE then
    ⟨r, none, C_ERROR⟩
  else
    let frag_type := get_recvd_fragment_type p
    if frag_type == RLE_PDU_COMPLETE then
      let j := get_first_free_frag_ctx r
      if j < 0 then ⟨r, some j, C_ERROR⟩
      else deencap_resume reasm r p data_length frag_type j.toNat
    else if frag_type == RLE_PDU_START_FRAG then
      let i := get_fragment_id p
      if i > RLE_MAX_FRAG_ID then ⟨r, some (Int.ofNat i), C_ERROR⟩
      else if is_context_free r i == false then
        deencap_resume reasm (deencap_drop_busy_start_ctx r i) p data_length frag_type i
      else
        deencap_resume reasm r p data_length frag_type i
    else if frag_type == RLE_PDU_CONT_FRAG || frag_type == RLE_PDU_END_FRAG then
      let i := get_fragment_id p
      if i > RLE_MAX_FRAG_ID then ⟨r, some (Int.ofNat i), C_ERROR⟩
      else if is_context_free r i == true then
        ⟨deencap_drop_orphan_ctx r i, some (Int.ofNat i), C_ERROR⟩
      else
        deencap_resume reasm r p data_length frag_type i
    else
      ⟨r, some (-1), C_ERROR⟩

/-! ## Concrete fixtures used by witnesses and counterexamples -/

/-- The all-defaults configuration. -/
def zero_conf : rle_configuration :=
  { default_ptype := 0, crc_check := false, ptype_compression := false,
    ptype_suppression := false }

/-- A CRC-trailer configuration with implicit type 0x0800. -/
def conf_crc : rle_configuration :=
  { default_ptype := 0x0800, crc_check := true, ptype_compression := false,
    ptype_suppression := false }

/-- A trivial concrete reassembly engine for closed statements: accept and
leave the context unchanged. -/
def reasm_trivial : ReasmFun := fun ctx _ _ _ _ => (C_OK, ctx)

/-- A receiver with all eight contexts fresh and free. -/
def rx_all_free : rle_receiver :=
  { rle_ctx_man := List.replicate 8 flushed_ctx
    rle_conf := List.replicate 8 zero_conf
    free_ctx := 0 }

/-- A receiver with all eight contexts marked busy. -/
def rx_all_busy : rle_receiver :=
  { rle_ctx_man := List.replicate 8 flushed_ctx
    rle_conf := List.replicate 8 zero_conf
    free_ctx := 255 }

/-- A receiver whose contexts 0 and 1 are busy. -/
def rx_busy01 : rle_receiver :=
  { rle_ctx_man := List.replicate 8 flushed_ctx
    rle_conf := List.replicate 8 zero_conf
    free_ctx := 3 }

/-- A transmitter whose context 0 is in use. -/
def tx_busy0 : rle_transmitter :=
  { rle_ctx_man := List.replicate 8 flushed_ctx
    rle_conf := conf_crc
    free_ctx := 1 }

/-- A CONT PPDU for fragment id 3. -/
def ppdu_cont3 : PPDU := { start_ind := 0, end_ind := 0, LT_T_FID := 3, body := [1, 2] }

/-- A START PPDU for fragment id 2. -/
def ppdu_start2 : PPDU := { start_ind := 1, end_ind := 0, LT_T_FID := 2, body := [1, 2] }

/-- A COMPLETE PPDU. -/
def ppdu_complete : PPDU := { start_ind := 1, end_ind := 1, LT_T_FID := 0, body := [1, 2] }

/-! ## Helper lemmas on the free bitmap and the context list -/

/-- Clearing bit i of the bitmap through `rle_ctx_set_free` leaves bit i
clear, for any in-range index. -/
theorem set_free_clears_bit (f i : Nat) (h : i < 8) :
    ((rle_ctx_set_free f i) >>> i) &&& 1 = 0 := by
  have hm : Nat.testBit (255 ^^^ ((1 <<< i) % 256)) i = false := by
    interval_cases i <;> decide
  have hb : Nat.testBit (rle_ctx_set_free f i) i = false := by
    unfold rle_ctx_set_free
    rw [Nat.testBit_and, hm, Bool.and_false]
  rw [Nat.testBit_to_div_mod] at hb
  rw [Nat.and_one_is_mod, Nat.shiftRight_eq_div_pow]
  simp only [decide_eq_false_iff_not] at hb
  omega

/-- Reading back an in-range list update. -/
theorem getD_set_self {α : Type} (l : List α) (i : Nat) (a d : α) (h : i < l.length) :
    (l.set i a).getD i d = a := by
  rw [List.getD_eq_getElem?_getD, List.getElem?_set_self h]
  rfl

/-- In range, `is_context_free` is exactly the bitmap bit test. -/
theorem is_context_free_lt (r : rle_receiver) (k : Nat) (h : k < 8) :
    is_context_free r k = (((r.free_ctx >>> k) &&& 1) == 0) := by
  unfold is_context_free
  rw [if_neg]
  simp only [RLE_MAX_FRAG_NUMBER]
  omega

/-- The first-free loop returns the least clear bit. -/
theorem find_first_free_spec (f j : Nat) (hj : j < 8)
    (hfree : (((f >>> j) &&& 1) == 0) = true)
    (hmin : ∀ k, k < j → (((f >>> k) &&& 1) == 0) = false) :
    (List.range 8).find? (fun i => ((f >>> i) &&& 1) == 0) = some j := by
  have h8 : List.range 8 = [0, 1, 2, 3, 4, 5, 6, 7] := by rfl
  rw [h8]
  interval_cases j <;>
    (try have h0 := hmin 0 (by omega)) <;>
    (try have h1 := hmin 1 (by omega)) <;>
    (try have h2 := hmin 2 (by omega)) <;>
    (try have h3 := hmin 3 (by omega)) <;>
    (try have h4 := hmin 4 (by omega)) <;>
    (try have h5 := hmin 5 (by omega)) <;>
    (try have h6 := hmin 6 (by omega)) <;>
    simp_all [List.find?]

/-- The first-free loop fails exactly on a fully set bitmap. -/
theorem find_first_free_none (f : Nat)
    (hall : ∀ k, k < 8 → (((f >>> k) &&& 1) == 0) = false) :
    (List.range 8).find? (fun i => ((f >>> i) &&& 1) == 0) = none := by
  rw [List.find?_eq_none]
  intro x hx
  simp only [List.mem_range] at hx
  have hk := hall x hx
  simp only [beq_eq_false_iff_ne, ne_eq, Nat.and_one_is_mod] at hk
  simp only [beq_iff_eq, Nat.and_one_is_mod]
  omega

/-! ## C7 -/

/-- C7: transmitter construction fails exactly when the configured implicit
protocol type is the reserved VLAN-compressed-without-ptype code 0x31; for
every other implicit protocol type the constructor does not fail for this
reason. -/
theorem C7_transmitter_new_rejects_0x31 (configuration : rle_context_configuration) :
    rle_transmitter_new configuration = none ↔
      configuration.implicit_protocol_type = RLE_PROTO_TYPE_VLAN_COMP_WO_PTYPE_FIELD := by
  unfold rle_transmitter_new
  split
  · rename_i hc
    simp only [beq_iff_eq] at hc
    simp [hc]
  · rename_i hc
    simp only [beq_iff_eq] at hc
    simp [hc]

/-! ## C10 -/

/-- C10: a PPDU whose announced length exceeds RLE_MAX_PDU_SIZE makes
deencap return C_ERROR before dispatching on the fragment type: the receiver
(all contexts, counters and the free bitmap) is returned unchanged and the
index out-parameter is never written. -/
theorem C10_oversize_ppdu_rejected_early (reasm : ReasmFun) (r : rle_receiver) (p : PPDU)
    (data_length : Nat) (hlen : data_length > RLE_MAX_PDU_SIZE) :
    rle_receiver_deencap_data reasm r p data_length =
      { rcv := r, index_ctx := none, ret := C_ERROR } := by
  unfold rle_receiver_deencap_data
  simp [hlen]

/-- C10 witness: a 4089-byte PPDU is rejected with the receiver unchanged. -/
theorem C10_witness :
    rle_receiver_deencap_data reasm_trivial rx_all_free ppdu_complete 4089 =
      { rcv := rx_all_free, index_ctx := none, ret := C_ERROR } :=
  C10_oversize_ppdu_rejected_early reasm_trivial rx_all_free ppdu_complete 4089 (by decide)

/-- Reading index i back through getElem? after an in-range update at i. -/
theorem getElem_set_self_getD {α : Type} (l : List α) (i : Nat) (a d : α)
    (h : i < l.length) : (l.set i a)[i]?.getD d = a := by
  rw [List.getElem?_set_self h]
  rfl

/-! ## C1 -/

/-- C1 counterexample: on a transmitter whose context 0 is in use, calling
`rle_transmitter_free_context` makes the context free but does not increment
the dropped counter of that context, contradicting the claim. -/
theorem C1_counterexample :
    rle_ctx_is_free tx_busy0.free_ctx 0 = false ∧
    rle_ctx_is_free (rle_transmitter_free_context tx_busy0 0).free_ctx 0 = true ∧
    ¬ (((rle_transmitter_free_context tx_busy0 0).rle_ctx_man.getD 0
          flushed_ctx).lk_status.counter_dropped =
        (tx_busy0.rle_ctx_man.getD 0 flushed_ctx).lk_status.counter_dropped + 1) := by
  decide

/-- C1 amended: `rle_transmitter_free_context` on an in-range fragment id
makes the context free and leaves every context record, in particular the
dropped counter, unchanged. -/
theorem C1_free_clears_bit_and_keeps_counters (t : rle_transmitter) (fragment_id : Nat)
    (h : fragment_id < RLE_MAX_FRAG_NUMBER) :
    rle_ctx_is_free (rle_transmitter_free_context t fragment_id).free_ctx fragment_id = true ∧
    (rle_transmitter_free_context t fragment_id).rle_ctx_man = t.rle_ctx_man := by
  have h8 : fragment_id < 8 := by
    simpa [RLE_MAX_FRAG_NUMBER] using h
  refine ⟨?_, rfl⟩
  unfold rle_transmitter_free_context rle_ctx_is_free
  simp [set_free_clears_bit t.free_ctx fragment_id h8]

/-- C1 witness: the amended statement at a transmitter whose context 0 is in
use. -/
theorem C1_witness :
    rle_ctx_is_free (rle_transmitter_free_context tx_busy0 0).free_ctx 0 = true ∧
    (rle_transmitter_free_context tx_busy0 0).rle_ctx_man = tx_busy0.rle_ctx_man :=
  C1_free_clears_bit_and_keeps_counters tx_busy0 0 (by decide)

/-! ## C2 -/

/-- C2 counterexample: with a configuration whose trailer mode is CRC, a
successful encap leaves the per-ALPDU use_crc flag of the context at false,
contradicting the claimed agreement with the configured trailer mode. -/
theorem C2_counterexample :
    conf_crc.crc_check = true ∧
    (encap_encapsulate_pdu conf_crc (fun _ => false) (fun x => x) flushed_ctx
        [0xAA] 1 0x0800).2 = C_OK ∧
    ¬ ((encap_encapsulate_pdu conf_crc (fun _ => false) (fun x => x) flushed_ctx
        [0xAA] 1 0x0800).1.use_crc = true) := by
  decide

/-- C2 amended: every successful encap stores use_crc = false in the context,
because create_header writes C_FALSE unconditionally, whatever the configured
trailer mode and the protocol-type table; the flag is not made to agree with
the configuration at encapsulation time. -/
theorem C2_encap_sets_use_crc_false (conf : rle_configuration)
    (is_compressible : Nat → Bool) (compress : Nat → Nat) (ctx : rle_ctx_management)
    (pdu_buffer : List Nat) (pdu_length : Nat) (protocol_type : Nat)
    (h : pdu_length ≤ RLE_MAX_PDU_SIZE) :
    (encap_encapsulate_pdu conf is_compressible compress ctx pdu_buffer pdu_length
        protocol_type).2 = C_OK ∧
    (encap_encapsulate_pdu conf is_compressible compress ctx pdu_buffer pdu_length
        protocol_type).1.use_crc = false := by
  have hc : ¬ (pdu_length > RLE_MAX_PDU_SIZE) := by omega
  unfold encap_encapsulate_pdu encap_check_pdu_validity create_header
  simp [hc, C_OK, C_ERROR]

/-- C2 witness: the amended statement on a fresh context, a CRC-mode
configuration and a one-byte SDU. -/
theorem C2_witness :
    (encap_encapsulate_pdu conf_crc (fun _ => false) (fun x => x) flushed_ctx
        [0xAA] 1 0x0800).2 = C_OK ∧
    (encap_encapsulate_pdu conf_crc (fun _ => false) (fun x => x) flushed_ctx
        [0xAA] 1 0x0800).1.use_crc = false :=
  C2_encap_sets_use_crc_false conf_crc (fun _ => false) (fun x => x) flushed_ctx
    [0xAA] 1 0x0800 (by decide)

/-! ## C9 -/

/-- C9: encap increments counter_in by one and counter_bytes_in by the SDU
length whether or not the validity check passes, so both advance when the
SDU is rejected as too large: counter_in counts attempts, not successes. -/
theorem C9_counter_in_counts_attempts (conf : rle_configuration)
    (is_compressible : Nat → Bool) (compress : Nat → Nat) (ctx : rle_ctx_management)
    (pdu_buffer : List Nat) (pdu_length : Nat) (protocol_type : Nat)
    (h1 : ctx.lk_status.counter_in + 1 < UINT64_MOD)
    (h2 : ctx.lk_status.counter_bytes_in + pdu_length < UINT64_MOD) :
    (encap_encapsulate_pdu conf is_compressible compress ctx pdu_buffer pdu_length
        protocol_type).1.lk_status.counter_in = ctx.lk_status.counter_in + 1 ∧
    (encap_encapsulate_pdu conf is_compressible compress ctx pdu_buffer pdu_length
        protocol_type).1.lk_status.counter_bytes_in =
      ctx.lk_status.counter_bytes_in + pdu_length := by
  unfold encap_encapsulate_pdu encap_check_pdu_validity create_header
  unfold rle_ctx_incr_counter_in rle_ctx_incr_counter_bytes_in
  unfold rle_ctx_incr_counter_dropped rle_ctx_incr_counter_bytes_dropped
  split <;> simp [C_OK, C_ERROR, Nat.mod_eq_of_lt h1, Nat.mod_eq_of_lt h2]

/-- C9 witness: an oversize 4089-byte SDU still advances both attempt
counters on a fresh context. -/
theorem C9_witness :
    (encap_encapsulate_pdu conf_crc (fun _ => false) (fun x => x) flushed_ctx
        [] 4089 0x0800).1.lk_status.counter_in =
      flushed_ctx.lk_status.counter_in + 1 ∧
    (encap_encapsulate_pdu conf_crc (fun _ => false) (fun x => x) flushed_ctx
        [] 4089 0x0800).1.lk_status.counter_bytes_in =
      flushed_ctx.lk_status.counter_bytes_in + 4089 :=
  C9_counter_in_counts_attempts conf_crc (fun _ => false) (fun x => x) flushed_ctx
    [] 4089 0x0800 (by decide) (by decide)

/-! ## C6 -/

/-- On an oversize SDU, encap returns C_ERROR having bumped exactly the four
counters counter_in, counter_bytes_in, counter_dropped and
counter_bytes_dropped of the context. -/
theorem encap_oversize_eq (conf : rle_configuration) (is_compressible : Nat → Bool)
    (compress : Nat → Nat) (ctx : rle_ctx_management) (pdu_buffer : List Nat)
    (pdu_length : Nat) (protocol_type : Nat) (hlen : pdu_length > RLE_MAX_PDU_SIZE) :
    encap_encapsulate_pdu conf is_compressible compress ctx pdu_buffer pdu_length
        protocol_type =
      ({ ctx with lk_status :=
          { ctx.lk_status with
              counter_in := (ctx.lk_status.counter_in + 1) % UINT64_MOD
              counter_bytes_in := (ctx.lk_status.counter_bytes_in + pdu_length) % UINT64_MOD
              counter_dropped := (ctx.lk_status.counter_dropped + 1) % UINT64_MOD
              counter_bytes_dropped :=
                (ctx.lk_status.counter_bytes_dropped + pdu_length) % UINT64_MOD } },
        C_ERROR) := by
  unfold encap_encapsulate_pdu encap_check_pdu_validity
  unfold rle_ctx_incr_counter_in rle_ctx_incr_counter_bytes_in
  unfold rle_ctx_incr_counter_dropped rle_ctx_incr_counter_bytes_dropped
  simp [hlen]

/-- C6: an SDU longer than RLE_MAX_PDU_SIZE makes encap fail with C_ERROR,
increments the dropped counter of the context by one and its dropped-bytes
counter by the SDU length, stores no ALPDU in the context (PDU reference,
header buffer and ALPDU sizes are unchanged) and leaves the free bitmap, and
hence the freeness of the context, untouched. -/
theorem C6_oversize_sdu_rejected (is_compressible : Nat → Bool) (compress : Nat → Nat)
    (t : rle_transmitter) (data_buffer : List Nat) (data_length : Nat)
    (protocol_type : Nat) (frag_id : Nat)
    (hlen : data_length > RLE_MAX_PDU_SIZE)
    (hfid : frag_id < t.rle_ctx_man.length)
    (hwf1 : (t.rle_ctx_man.getD frag_id flushed_ctx).lk_status.counter_dropped + 1
        < UINT64_MOD)
    (hwf2 : (t.rle_ctx_man.getD frag_id flushed_ctx).lk_status.counter_bytes_dropped
        + data_length < UINT64_MOD) :
    (rle_transmitter_encap_data is_compressible compress t data_buffer data_length
        protocol_type frag_id).2 = C_ERROR ∧
    ((rle_transmitter_encap_data is_compressible compress t data_buffer data_length
          protocol_type frag_id).1.rle_ctx_man.getD frag_id
        flushed_ctx).lk_status.counter_dropped =
      (t.rle_ctx_man.getD frag_id flushed_ctx).lk_status.counter_dropped + 1 ∧
    ((rle_transmitter_encap_data is_compressible compress t data_buffer data_length
          protocol_type frag_id).1.rle_ctx_man.getD frag_id
        flushed_ctx).lk_status.counter_bytes_dropped =
      (t.rle_ctx_man.getD frag_id flushed_ctx).lk_status.counter_bytes_dropped
        + data_length ∧
    ((rle_transmitter_encap_data is_compressible compress t data_buffer data_length
          protocol_type frag_id).1.rle_ctx_man.getD frag_id flushed_ctx).pdu_buf =
      (t.rle_ctx_man.getD frag_id flushed_ctx).pdu_buf ∧
    ((rle_transmitter_encap_data is_compressible compress t data_buffer data_length
          protocol_type frag_id).1.rle_ctx_man.getD frag_id flushed_ctx).buf =
      (t.rle_ctx_man.getD frag_id flushed_ctx).buf ∧
    ((rle_transmitter_encap_data is_compressible compress t data_buffer data_length
          protocol_type frag_id).1.rle_ctx_man.getD frag_id flushed_ctx).alpdu_size =
      (t.rle_ctx_man.getD frag_id flushed_ctx).alpdu_size ∧
    ((rle_transmitter_encap_data is_compressible compress t data_buffer data_length
          protocol_type frag_id).1.rle_ctx_man.getD frag_id
        flushed_ctx).remaining_alpdu_size =
      (t.rle_ctx_man.getD frag_id flushed_ctx).remaining_alpdu_size ∧
    (rle_transmitter_encap_data is_compressible compress t data_buffer data_length
        protocol_type frag_id).1.free_ctx = t.free_ctx := by
  have henc := encap_oversize_eq t.rle_conf is_compressible compress
    (t.rle_ctx_man.getD frag_id flushed_ctx) data_buffer data_length protocol_type hlen
  simp only [List.getD_eq_getElem?_getD] at hwf1 hwf2 henc ⊢
  simp only [rle_transmitter_encap_data, List.getD_eq_getElem?_getD, henc]
  simp [C_OK, C_ERROR, getElem_set_self_getD _ _ _ _ hfid,
    Nat.mod_eq_of_lt hwf1, Nat.mod_eq_of_lt hwf2]

/-- C6 witness: a 4089-byte SDU on fragment id 0 of a transmitter. -/
theorem C6_witness :
    (rle_transmitter_encap_data (fun _ => false) (fun x => x) tx_busy0
        [] 4089 0x0800 0).2 = C_ERROR ∧
    ((rle_transmitter_encap_data (fun _ => false) (fun x => x) tx_busy0
        [] 4089 0x0800 0).1.rle_ctx_man.getD 0 flushed_ctx).lk_status.counter_dropped =
      (tx_busy0.rle_ctx_man.getD 0 flushed_ctx).lk_status.counter_dropped + 1 ∧
    ((rle_transmitter_encap_data (fun _ => false) (fun x => x) tx_busy0
        [] 4089 0x0800 0).1.rle_ctx_man.getD 0
          flushed_ctx).lk_status.counter_bytes_dropped =
      (tx_busy0.rle_ctx_man.getD 0 flushed_ctx).lk_status.counter_bytes_dropped + 4089 ∧
    ((rle_transmitter_encap_data (fun _ => false) (fun x => x) tx_busy0
        [] 4089 0x0800 0).1.rle_ctx_man.getD 0 flushed_ctx).pdu_buf =
      (tx_busy0.rle_ctx_man.getD 0 flushed_ctx).pdu_buf ∧
    ((rle_transmitter_encap_data (fun _ => false) (fun x => x) tx_busy0
        [] 4089 0x0800 0).1.rle_ctx_man.getD 0 flushed_ctx).buf =
      (tx_busy0.rle_ctx_man.getD 0 flushed_ctx).buf ∧
    ((rle_transmitter_encap_data (fun _ => false) (fun x => x) tx_busy0
        [] 4089 0x0800 0).1.rle_ctx_man.getD 0 flushed_ctx).alpdu_size =
      (tx_busy0.rle_ctx_man.getD 0 flushed_ctx).alpdu_size ∧
    ((rle_transmitter_encap_data (fun _ => false) (fun x => x) tx_busy0
        [] 4089 0x0800 0).1.rle_ctx_man.getD 0 flushed_ctx).remaining_alpdu_size =
      (tx_busy0.rle_ctx_man.getD 0 flushed_ctx).remaining_alpdu_size ∧
    (rle_transmitter_encap_data (fun _ => false) (fun x => x) tx_busy0
        [] 4089 0x0800 0).1.free_ctx = tx_busy0.free_ctx :=
  C6_oversize_sdu_rejected (fun _ => false) (fun x => x) tx_busy0 [] 4089 0x0800 0
    (by decide) (by decide) (by decide) (by decide)

/-! ## C8 -/

/-- C8: a signalling SDU (protocol type 0x0082) gets a header that carries
the protocol-type field, with label_type PROTO_SIGNAL; a non-signalling
protocol type that is not omissible gets a carried field with label_type
NO_SUPP.  The statement holds for every configuration and every
protocol-type table. -/
theorem C8_signal_and_nosupp_labels (conf : rle_configuration)
    (is_compressible : Nat → Bool) (compress : Nat → Nat) (ctx : rle_ctx_management)
    (data_buffer : List Nat) (data_length : Nat) (protocol_type : Nat)
    (hns : protocol_type ≠ RLE_PROTO_TYPE_SIGNAL_UNCOMP)
    (hnom : ptype_is_omissible protocol_type conf = false) :
    ((create_header conf is_compressible compress ctx data_buffer data_length
        RLE_PROTO_TYPE_SIGNAL_UNCOMP).1.buf.ptype_field ≠ PtypeField.suppressed ∧
      (create_header conf is_compressible compress ctx data_buffer data_length
        RLE_PROTO_TYPE_SIGNAL_UNCOMP).1.buf.label_type = RLE_LT_PROTO_SIGNAL) ∧
    ((create_header conf is_compressible compress ctx data_buffer data_length
        protocol_type).1.buf.ptype_field ≠ PtypeField.suppressed ∧
      (create_header conf is_compressible compress ctx data_buffer data_length
        protocol_type).1.buf.label_type = RLE_T_PROTO_TYPE_NO_SUPP) := by
  have hsig : ptype_is_omissible RLE_PROTO_TYPE_SIGNAL_UNCOMP conf = false := by
    unfold ptype_is_omissible
    simp
  refine ⟨⟨?_, ?_⟩, ?_, ?_⟩ <;>
    unfold create_header <;>
    simp [hsig, hnom, hns, RLE_T_PROTO_TYPE_NO_SUPP, RLE_T_PROTO_TYPE_SUPP] <;>
    split <;>
    (try split) <;>
    simp_all

/-- C8 witness: the labels at a plain configuration with the IPv4 protocol
type as the non-signalling case. -/
theorem C8_witness :
    ((create_header zero_conf (fun _ => false) (fun x => x) flushed_ctx [1] 1
        RLE_PROTO_TYPE_SIGNAL_UNCOMP).1.buf.ptype_field ≠ PtypeField.suppressed ∧
      (create_header zero_conf (fun _ => false) (fun x => x) flushed_ctx [1] 1
        RLE_PROTO_TYPE_SIGNAL_UNCOMP).1.buf.label_type = RLE_LT_PROTO_SIGNAL) ∧
    ((create_header zero_conf (fun _ => false) (fun x => x) flushed_ctx [1] 1
        0x0800).1.buf.ptype_field ≠ PtypeField.suppressed ∧
      (create_header zero_conf (fun _ => false) (fun x => x) flushed_ctx [1] 1
        0x0800).1.buf.label_type = RLE_T_PROTO_TYPE_NO_SUPP) :=
  C8_signal_and_nosupp_labels zero_conf (fun _ => false) (fun x => x) flushed_ctx
    [1] 1 0x0800 (by decide) (by decide)

/-! ## C3 -/

/-- C3: a CONT or END PPDU (start indicator 0) whose fragment-id context is
free makes deencap return C_ERROR as an orphan fragment, increment the lost
counter of that context by exactly one, and leave the context free. -/
theorem C3_orphan_cont_end (reasm : ReasmFun) (r : rle_receiver) (p : PPDU)
    (data_length : Nat)
    (hlen : data_length ≤ RLE_MAX_PDU_SIZE)
    (hstart : p.start_ind = 0)
    (hfid : p.LT_T_FID ≤ RLE_MAX_FRAG_ID)
    (hlt : p.LT_T_FID < r.rle_ctx_man.length)
    (hfree : is_context_free r p.LT_T_FID = true)
    (hwf : (r.rle_ctx_man.getD p.LT_T_FID flushed_ctx).lk_status.counter_lost + 1
        < UINT64_MOD) :
    (rle_receiver_deencap_data reasm r p data_length).ret = C_ERROR ∧
    ((rle_receiver_deencap_data reasm r p data_length).rcv.rle_ctx_man.getD
        p.LT_T_FID flushed_ctx).lk_status.counter_lost =
      (r.rle_ctx_man.getD p.LT_T_FID flushed_ctx).lk_status.counter_lost + 1 ∧
    is_context_free (rle_receiver_deencap_data reasm r p data_length).rcv
      p.LT_T_FID = true := by
  have hfid8 : p.LT_T_FID < 8 := by
    simp only [RLE_MAX_FRAG_ID] at hfid
    omega
  have hnlen : ¬ data_length > RLE_MAX_PDU_SIZE := by omega
  have hngt : ¬ p.LT_T_FID > RLE_MAX_FRAG_ID := by omega
  obtain ⟨s, e, fid, body⟩ := p
  dsimp only at hstart hfid hfree hwf hlt hfid8 hngt ⊢
  subst hstart
  have hmain : rle_receiver_deencap_data reasm r ⟨0, e, fid, body⟩ data_length =
      ⟨deencap_drop_orphan_ctx r fid, some (Int.ofNat fid), C_ERROR⟩ := by
    unfold rle_receiver_deencap_data get_recvd_fragment_type get_fragment_id
    cases e <;>
      simp [hnlen, hngt, hfree, RLE_PDU_COMPLETE, RLE_PDU_START_FRAG,
        RLE_PDU_CONT_FRAG, RLE_PDU_END_FRAG, C_ERROR]
  rw [hmain]
  refine ⟨rfl, ?_, ?_⟩
  · unfold deencap_drop_orphan_ctx rle_receiver_free_context rle_ctx_flush_buffer
    unfold rle_ctx_incr_counter_dropped rle_ctx_incr_counter_lost
    unfold rle_ctx_incr_counter_bytes_dropped rle_ctx_get_remaining_alpdu_length
    simp only [List.getD_eq_getElem?_getD] at hwf ⊢
    have hwf2 : r.rle_ctx_man[fid].lk_status.counter_lost + 1 < UINT64_MOD := by
      simpa [List.getElem?_eq_getElem, hlt] using hwf
    simp [List.getElem?_set_self, List.length_set, hlt, Nat.mod_eq_of_lt hwf2]
  · unfold deencap_drop_orphan_ctx rle_receiver_free_context is_context_free
    have hge : ¬ fid ≥ RLE_MAX_FRAG_NUMBER := by
      simp only [RLE_MAX_FRAG_NUMBER]
      omega
    simp [hge, set_free_clears_bit r.free_ctx fid hfid8]

/-- C3 witness: an orphan CONT for fragment id 3 on an all-free receiver. -/
theorem C3_witness :
    (rle_receiver_deencap_data reasm_trivial rx_all_free ppdu_cont3 4).ret = C_ERROR ∧
    ((rle_receiver_deencap_data reasm_trivial rx_all_free ppdu_cont3
        4).rcv.rle_ctx_man.getD ppdu_cont3.LT_T_FID flushed_ctx).lk_status.counter_lost =
      (rx_all_free.rle_ctx_man.getD ppdu_cont3.LT_T_FID
          flushed_ctx).lk_status.counter_lost + 1 ∧
    is_context_free (rle_receiver_deencap_data reasm_trivial rx_all_free ppdu_cont3 4).rcv
      ppdu_cont3.LT_T_FID = true :=
  C3_orphan_cont_end reasm_trivial rx_all_free ppdu_cont3 4 (by decide) (by decide)
    (by decide) (by decide) (by decide) (by decide)

/-! ## C4 -/

/-- C4: a START PPDU whose fragment-id context is in use is not rejected:
deencap runs exactly as on the receiver in which that context has been
charged one dropped SDU plus its remaining ALPDU bytes and released, and it
then proceeds with reassembly of the new ALPDU on the freed context; at the
hand-over point the charged context shows dropped incremented by exactly one
and is free. -/
theorem C4_start_preempts (reasm : ReasmFun) (r : rle_receiver) (p : PPDU)
    (data_length : Nat)
    (hlen : data_length ≤ RLE_MAX_PDU_SIZE)
    (hstart : p.start_ind = 1)
    (hend : p.end_ind = 0)
    (hfid : p.LT_T_FID ≤ RLE_MAX_FRAG_ID)
    (hlt : p.LT_T_FID < r.rle_ctx_man.length)
    (hbusy : is_context_free r p.LT_T_FID = false)
    (hwf : (r.rle_ctx_man.getD p.LT_T_FID flushed_ctx).lk_status.counter_dropped + 1
        < UINT64_MOD) :
    rle_receiver_deencap_data reasm r p data_length =
      rle_receiver_deencap_data reasm (deencap_drop_busy_start_ctx r p.LT_T_FID) p
        data_length ∧
    ((deencap_drop_busy_start_ctx r p.LT_T_FID).rle_ctx_man.getD p.LT_T_FID
        flushed_ctx).lk_status.counter_dropped =
      (r.rle_ctx_man.getD p.LT_T_FID flushed_ctx).lk_status.counter_dropped + 1 ∧
    is_context_free (deencap_drop_busy_start_ctx r p.LT_T_FID) p.LT_T_FID = true := by
  have hfid8 : p.LT_T_FID < 8 := by
    simp only [RLE_MAX_FRAG_ID] at hfid
    omega
  have hnlen : ¬ data_length > RLE_MAX_PDU_SIZE := by omega
  have hngt : ¬ p.LT_T_FID > RLE_MAX_FRAG_ID := by omega
  obtain ⟨s, e, fid, body⟩ := p
  dsimp only at hstart hend hfid hbusy hwf hlt hfid8 hngt ⊢
  subst hstart
  subst hend
  have hfree2 : is_context_free (deencap_drop_busy_start_ctx r fid) fid = true := by
    unfold deencap_drop_busy_start_ctx rle_receiver_free_context is_context_free
    have hge : ¬ fid ≥ RLE_MAX_FRAG_NUMBER := by
      simp only [RLE_MAX_FRAG_NUMBER]
      omega
    simp [hge, set_free_clears_bit _ fid hfid8]
  refine ⟨?_, ?_, hfree2⟩
  · unfold rle_receiver_deencap_data get_recvd_fragment_type get_fragment_id
    simp [hnlen, hngt, hbusy, hfree2, RLE_PDU_COMPLETE, RLE_PDU_START_FRAG,
      RLE_PDU_CONT_FRAG, RLE_PDU_END_FRAG]
  · unfold deencap_drop_busy_start_ctx rle_receiver_free_context rle_ctx_flush_buffer
    unfold rle_ctx_incr_counter_dropped rle_ctx_incr_counter_bytes_dropped
    unfold rle_ctx_get_remaining_alpdu_length
    simp only [List.getD_eq_getElem?_getD] at hwf ⊢
    have hwf2 : r.rle_ctx_man[fid].lk_status.counter_dropped + 1 < UINT64_MOD := by
      simpa [List.getElem?_eq_getElem, hlt] using hwf
    simp [List.getElem?_set_self, List.length_set, hlt, Nat.mod_eq_of_lt hwf2]

/-- C4 witness: a START for fragment id 2 while context 2 of the receiver is
busy. -/
theorem C4_witness :
    rle_receiver_deencap_data reasm_trivial
        { rle_ctx_man := List.replicate 8 flushed_ctx
          rle_conf := List.replicate 8 zero_conf
          free_ctx := 4 } ppdu_start2 4 =
      rle_receiver_deencap_data reasm_trivial
        (deencap_drop_busy_start_ctx
          { rle_ctx_man := List.replicate 8 flushed_ctx
            rle_conf := List.replicate 8 zero_conf
            free_ctx := 4 } ppdu_start2.LT_T_FID) ppdu_start2 4 ∧
    ((deencap_drop_busy_start_ctx
        { rle_ctx_man := List.replicate 8 flushed_ctx
          rle_conf := List.replicate 8 zero_conf
          free_ctx := 4 } ppdu_start2.LT_T_FID).rle_ctx_man.getD ppdu_start2.LT_T_FID
        flushed_ctx).lk_status.counter_dropped =
      (({ rle_ctx_man := List.replicate 8 flushed_ctx
          rle_conf := List.replicate 8 zero_conf
          free_ctx := 4 } : rle_receiver).rle_ctx_man.getD ppdu_start2.LT_T_FID
          flushed_ctx).lk_status.counter_dropped + 1 ∧
    is_context_free
      (deencap_drop_busy_start_ctx
        { rle_ctx_man := List.replicate 8 flushed_ctx
          rle_conf := List.replicate 8 zero_conf
          free_ctx := 4 } ppdu_start2.LT_T_FID) ppdu_start2.LT_T_FID = true :=
  C4_start_preempts reasm_trivial
    { rle_ctx_man := List.replicate 8 flushed_ctx
      rle_conf := List.replicate 8 zero_conf
      free_ctx := 4 } ppdu_start2 4 (by decide) (by decide) (by decide) (by decide)
    (by decide) (by decide) (by decide)

/-! ## C5 -/

/-- C5 counterexample: with all eight contexts busy, deencap of a COMPLETE
PPDU returns C_ERROR with the receiver unchanged, so no dropped counter is
incremented, contradicting that part of the claim. -/
theorem C5_counterexample :
    (rle_receiver_deencap_data reasm_trivial rx_all_busy ppdu_complete 4).ret =
      C_ERROR ∧
    (rle_receiver_deencap_data reasm_trivial rx_all_busy ppdu_complete 4).rcv =
      rx_all_busy ∧
    (∀ i, i < 8 → ¬ (((rle_receiver_deencap_data reasm_trivial rx_all_busy
          ppdu_complete 4).rcv.rle_ctx_man.getD i
            flushed_ctx).lk_status.counter_dropped =
        (rx_all_busy.rle_ctx_man.getD i flushed_ctx).lk_status.counter_dropped + 1)) := by
  decide

/-- C5 amended: a COMPLETE PPDU with all eight contexts busy is dropped with
C_ERROR, the receiver unchanged and no counter incremented; with at least
one free context, the free context with the lowest index is acquired and the
dispatch proceeds on it. -/
theorem C5_complete_dispatch (reasm : ReasmFun) (r : rle_receiver) (p : PPDU)
    (data_length : Nat)
    (hlen : data_length ≤ RLE_MAX_PDU_SIZE)
    (hstart : p.start_ind = 1)
    (hend : p.end_ind ≠ 0) :
    ((∀ k, k < 8 → is_context_free r k = false) →
      rle_receiver_deencap_data reasm r p data_length =
        { rcv := r, index_ctx := some (-1), ret := C_ERROR }) ∧
    (∀ j, j < 8 → is_context_free r j = true →
      (∀ k, k < j → is_context_free r k = false) →
      rle_receiver_deencap_data reasm r p data_length =
        deencap_resume reasm r p data_length RLE_PDU_COMPLETE j) := by
  have hnlen : ¬ data_length > RLE_MAX_PDU_SIZE := by omega
  obtain ⟨s, e, fid, body⟩ := p
  dsimp only at hstart hend ⊢
  subst hstart
  constructor
  · intro hall
    have hnone : get_first_free_frag_ctx r = C_ERROR := by
      unfold get_first_free_frag_ctx
      rw [show RLE_MAX_FRAG_NUMBER = 8 from rfl]
      rw [find_first_free_none r.free_ctx ?hall2]
      case hall2 =>
        intro k hk
        have hc := hall k hk
        rwa [is_context_free_lt r k hk] at hc
    unfold rle_receiver_deencap_data get_recvd_fragment_type
    cases e
    · exact absurd rfl hend
    · simp [hnlen, hnone, C_ERROR, RLE_PDU_COMPLETE]
  · intro j hj hfree hmin
    have hsome : get_first_free_frag_ctx r = Int.ofNat j := by
      unfold get_first_free_frag_ctx
      rw [show RLE_MAX_FRAG_NUMBER = 8 from rfl]
      rw [find_first_free_spec r.free_ctx j hj ?hf ?hm]
      case hf =>
        rwa [is_context_free_lt r j hj] at hfree
      case hm =>
        intro k hk
        have hc := hmin k hk
        rwa [is_context_free_lt r k (by omega)] at hc
    unfold rle_receiver_deencap_data get_recvd_fragment_type
    cases e
    · exact absurd rfl hend
    · simp [hnlen, hsome, RLE_PDU_COMPLETE]

/-- C5 witness: the exhausted case on an all-busy receiver, and the
lowest-free-index case on a receiver with contexts 0 and 1 busy acquiring
index 2. -/
theorem C5_witness :
    rle_receiver_deencap_data reasm_trivial rx_all_busy ppdu_complete 4 =
      { rcv := rx_all_busy, index_ctx := some (-1), ret := C_ERROR } ∧
    rle_receiver_deencap_data reasm_trivial rx_busy01 ppdu_complete 4 =
      deencap_resume reasm_trivial rx_busy01 ppdu_complete 4 RLE_PDU_COMPLETE 2 :=
  ⟨(C5_complete_dispatch reasm_trivial rx_all_busy ppdu_complete 4 (by decide)
      (by decide) (by decide)).1 (by decide),
    (C5_complete_dispatch reasm_trivial rx_busy01 ppdu_complete 4 (by decide)
      (by decide) (by decide)).2 2 (by decide) (by decide) (by decide)⟩
